import Mathlib

/-!
Verification of the god-life-backend habit-completion accounting engine.

This file shallowly embeds, in Lean 4, the streak calculation, the
aggregate-synchronizer triggers, the quota ledger, and the relevant edge
functions of the repository, and proves (or refutes) the frozen claims
about them.

Conventions of the embedding:
* SQL `DATE` values used by the streak walk are modelled as `Int`
  (day indices); `date - 1` in PL/pgSQL becomes integer subtraction.
* Calendar dates used by the quota ledger are modelled as
  year/month/day triples, since the monthly window needs real months.
* A PL/pgSQL variable that can hold SQL `NULL` is modelled as `Option`;
  in particular `SELECT ... INTO` over zero rows assigns `NULL`
  (`none`), and a `BOOLEAN` expression involving `NULL` yields `NULL`.
* Tables are modelled as lists of rows; triggers become functions on
  those lists applied in the same order Postgres fires them
  (alphabetically by trigger name for the same event).
-/

/-! ## Streak calculator (`calculate_streak`, migration 20260114000003 lines 13-44)

The PL/pgSQL loop starts with `v_streak := 1` and
`v_check_date := p_completion_date - 1`, exits as soon as no completion
exists on the checked date, otherwise increments the streak, moves one
day back, and exits when the streak exceeds 10000.  The completion log
is abstracted as the `EXISTS` predicate `log : Int → Bool`. -/

def streakLoopFuelAux (log : Int → Bool) : Nat → Nat → Int → Nat
  | 0, streak, _ => streak
  | fuel + 1, streak, check =>
    if log check = false then streak
    else
      let s := streak + 1
      if s > 10000 then s
      else streakLoopFuelAux log fuel s (check - 1)

def streakLoop (log : Int → Bool) (streak : Nat) (check : Int) : Nat :=
  streakLoopFuelAux log (10001 - streak) streak check

def calculate_streak (log : Int → Bool) (anchor : Int) : Nat :=
  streakLoop log 1 (anchor - 1)

/-- Unfolding equation for `streakLoop`: below the guard it behaves
exactly like the unguarded PL/pgSQL loop body (the fuel is chosen so
that the `v_streak > 10000` guard, never the fuel, stops the loop). -/
theorem streakLoop_eq (log : Int → Bool) (streak : Nat) (check : Int)
    (h : streak ≤ 10000) :
    streakLoop log streak check =
      if log check = false then streak
      else
        let s := streak + 1
        if s > 10000 then s
        else streakLoop log s (check - 1) := by
  unfold streakLoop
  have hfuel : 10001 - streak = (10000 - streak) + 1 := by omega
  rw [hfuel]
  show streakLoopFuelAux log ((10000 - streak) + 1) streak check = _
  rw [streakLoopFuelAux]
  by_cases hc : log check = false
  · simp [hc]
  · simp only [hc, if_false]
    by_cases hg : streak + 1 > 10000
    · simp [hg]
    · have hfuel2 : 10001 - (streak + 1) = 10000 - streak := by omega
      simp only [hg, if_false]
      rw [hfuel2]

/-- If exactly `j` consecutive days `check, check-1, ..., check-(j-1)` are
in the log, the day `check - j` is not, and the running streak stays
within the guard, the loop returns `streak + j`. -/
theorem streakLoop_run (log : Int → Bool) :
    ∀ (j : Nat) (streak : Nat) (check : Int),
      streak + j ≤ 10000 →
      (∀ i : Nat, i < j → log (check - i) = true) →
      log (check - j) = false →
      streakLoop log streak check = streak + j := by
  intro j
  induction j with
  | zero =>
    intro streak check hle _ hgap
    rw [streakLoop_eq log streak check (by omega)]
    simp only [Nat.cast_zero, sub_zero] at hgap
    simp [hgap]
  | succ n ih =>
    intro streak check hle hrun hgap
    have h0 : log check = true := by
      have := hrun 0 (Nat.succ_pos n)
      simpa using this
    rw [streakLoop_eq log streak check (by omega), h0]
    simp only [Bool.true_eq_false, if_false]
    have hguard : ¬ (streak + 1 > 10000) := by omega
    rw [if_neg hguard]
    have ih2 := ih (streak + 1) (check - 1) (by omega)
      (by
        intro i hi
        have := hrun (i + 1) (by omega)
        have hcast : check - 1 - (i : Int) = check - ((i : Nat) + 1 : Nat) := by
          push_cast
          ring
        rw [hcast]
        exact this)
      (by
        have hcast : check - 1 - (n : Int) = check - ((n : Nat) + 1 : Nat) := by
          push_cast
          ring
        rw [hcast]
        exact hgap)
    rw [ih2]
    omega

/-- If every one of the 10000 days before `check` (inclusive of `check`)
is in the log, the loop started at `streak = 10001 - j` stops at the
guard and returns 10001. -/
theorem streakLoop_cap (log : Int → Bool) :
    ∀ (j : Nat), 1 ≤ j → j ≤ 10000 →
      ∀ (check : Int),
        (∀ i : Nat, i < j → log (check - i) = true) →
        streakLoop log (10001 - j) check = 10001 := by
  intro j
  induction j with
  | zero => omega
  | succ n ih =>
    intro _ hle check hrun
    have h0 : log check = true := by
      have := hrun 0 (Nat.succ_pos n)
      simpa using this
    rw [streakLoop_eq log (10001 - (n + 1)) check (by omega), h0]
    simp only [Bool.true_eq_false, if_false]
    by_cases hn : n = 0
    · subst hn
      norm_num
    · have hguard : ¬ (10001 - (n + 1) + 1 > 10000) := by omega
      rw [if_neg hguard]
      have hstep : 10001 - (n + 1) + 1 = 10001 - n := by omega
      rw [hstep]
      exact ih (by omega) (by omega) (check - 1)
        (by
          intro i hi
          have := hrun (i + 1) (by omega)
          have hcast : check - 1 - (i : Int) = check - ((i : Nat) + 1 : Nat) := by
            push_cast
            ring
          rw [hcast]
          exact this)

/-- C3: for a routine whose log contains the anchor and exactly the
`k - 1` immediately preceding days (and not the day before those), with
`1 ≤ k ≤ 10000`, `calculate_streak` returns exactly `k`.  In particular
`k = 1` (no record on the day before the anchor) yields 1. -/
theorem C3_calculate_streak_exact_run (log : Int → Bool) (anchor : Int) (k : Nat)
    (hk1 : 1 ≤ k) (hk2 : k ≤ 10000)
    (_hanchor : log anchor = true)
    (hrun : ∀ i : Nat, i < k → log (anchor - i) = true)
    (hgap : log (anchor - k) = false) :
    calculate_streak log anchor = k := by
  unfold calculate_streak
  have h := streakLoop_run log (k - 1) 1 (anchor - 1) (by omega)
    (by
      intro i hi
      have := hrun (i + 1) (by omega)
      have hcast : anchor - 1 - (i : Int) = anchor - ((i : Nat) + 1 : Nat) := by
        push_cast
        ring
      rw [hcast]
      exact this)
    (by
      have hcast : anchor - 1 - ((k - 1 : Nat) : Int) = anchor - (k : Nat) := by
        have : ((k - 1 : Nat) : Int) = (k : Int) - 1 := by
          omega
        rw [this]
        ring
      rw [hcast]
      exact hgap)
  rw [h]
  omega

/-- Witness for C3: a log holding days 0, 1, 2, anchored at 2, gives
streak 3. -/
theorem C3_witness :
    calculate_streak (fun d => decide (0 ≤ d ∧ d ≤ 2)) 2 = 3 :=
  C3_calculate_streak_exact_run (fun d => decide (0 ≤ d ∧ d ≤ 2)) 2 3
    (by decide) (by decide) (by decide)
    (by decide) (by decide)

/-- Counterexample for C4 as stated: on a log that contains every date
(an unbroken run far longer than the ceiling), `calculate_streak`
returns 10001, not the ceiling value 10000 the claim asserts. -/
theorem C4_counterexample :
    calculate_streak (fun _ => true) 0 = 10001 ∧
      calculate_streak (fun _ => true) 0 ≠ 10000 := by
  have h : calculate_streak (fun _ => true) 0 = 10001 := by
    unfold calculate_streak
    have := streakLoop_cap (fun _ => true) 10000 (by omega) (le_refl _) (-1)
      (fun i _ => rfl)
    simpa using this
  exact ⟨h, by omega⟩

/-- C4 (amended): when the unbroken run ending at the anchor is longer
than the 10000-iteration ceiling, `calculate_streak` returns exactly
10001 (ceiling + 1): the guard exits only after the increment, so the
reported value is one more than the ceiling, and never anything
larger. -/
theorem C4_calculate_streak_capped (log : Int → Bool) (anchor : Int)
    (hrun : ∀ i : Nat, 1 ≤ i → i ≤ 10000 → log (anchor - i) = true) :
    calculate_streak log anchor = 10001 := by
  unfold calculate_streak
  have := streakLoop_cap log 10000 (by omega) (le_refl _) (anchor - 1)
    (by
      intro i hi
      have := hrun (i + 1) (by omega) (by omega)
      have hcast : anchor - 1 - (i : Int) = anchor - ((i : Nat) + 1 : Nat) := by
        push_cast
        ring
      rw [hcast]
      exact this)
  simpa using this

/-- Witness for the amended C4: the all-dates log anchored at 5 returns
10001. -/
theorem C4_witness : calculate_streak (fun _ => true) 5 = 10001 :=
  C4_calculate_streak_capped (fun _ => true) 5 (fun _ _ _ => rfl)

/-! ## Routine / completion / profile data model

Rows of `routines`, `routine_completions` and `profiles`
(migration 20260114000002), restricted to the columns the accounting
engine reads or writes.  Note that the `routines` table declares only
`current_streak`, `longest_streak` and `last_completed_at` as streak
fields — it has no `total_completions` column; `total_completions`
lives on `profiles` only. -/

structure Routine where
  id : Nat
  user_id : Nat
  status : String
  current_streak : Nat
  longest_streak : Nat
  last_completed_at : Option Int
deriving DecidableEq

structure Completion where
  routine_id : Nat
  user_id : Nat
  completion_date : Int
  streak_at_completion : Nat
deriving DecidableEq

structure Profile where
  id : Nat
  total_completions : Nat
  current_streak : Nat
  longest_streak : Nat
deriving DecidableEq

structure DB where
  routines : List Routine
  completions : List Completion
  profiles : List Profile
deriving DecidableEq

/-- Membership test of the completion log: the `EXISTS` subquery of
`calculate_streak` for a fixed routine. -/
def completionExists (l : List Completion) (rid : Nat) (d : Int) : Bool :=
  l.any (fun c => c.routine_id == rid && c.completion_date == d)

/-- Completion log of one routine as the predicate `calculate_streak`
walks over. -/
def routineLog (l : List Completion) (rid : Nat) : Int → Bool :=
  fun d => completionExists l rid d

/-- Trigger `update_routine_streak` (AFTER INSERT ON
routine_completions): copies `NEW.streak_at_completion` into
`current_streak`, takes `GREATEST` for `longest_streak`, and records the
completion date, on the row with `id = NEW.routine_id`. -/
def update_routine_streak (c : Completion) (r : Routine) : Routine :=
  if r.id == c.routine_id then
    { r with
      current_streak := c.streak_at_completion,
      longest_streak := max r.longest_streak c.streak_at_completion,
      last_completed_at := some c.completion_date }
  else r

/-- SQL `COALESCE(MAX(current_streak), 0)` over a user's active
routines. -/
def maxActiveStreak (routines : List Routine) (uid : Nat) : Nat :=
  ((routines.filter (fun r => r.user_id == uid && r.status == "active")).map
    (fun r => r.current_streak)).foldr max 0

/-- SQL `COALESCE(MAX(longest_streak), 0)` over all of a user's
routines. -/
def maxLongestStreak (routines : List Routine) (uid : Nat) : Nat :=
  ((routines.filter (fun r => r.user_id == uid)).map
    (fun r => r.longest_streak)).foldr max 0

/-- Trigger `update_profile_stats` (AFTER INSERT ON
routine_completions): increments the profile's `total_completions` and
recomputes the streak rollups from the routine rows as they stand when
the trigger fires. -/
def update_profile_stats (routines : List Routine) (c : Completion) (p : Profile) :
    Profile :=
  if p.id == c.user_id then
    { p with
      total_completions := p.total_completions + 1,
      current_streak := maxActiveStreak routines c.user_id,
      longest_streak := maxLongestStreak routines c.user_id }
  else p

/-- Trigger `decrement_profile_stats` (AFTER DELETE ON
routine_completions): `GREATEST(0, total_completions - 1)` is exactly
truncated `Nat` subtraction. -/
def decrement_profile_stats (routines : List Routine) (uid : Nat) (p : Profile) :
    Profile :=
  if p.id == uid then
    { p with
      total_completions := p.total_completions - 1,
      current_streak := maxActiveStreak routines uid,
      longest_streak := maxLongestStreak routines uid }
  else p

/-- Most recent completion date of a routine
(`SELECT completion_date ... ORDER BY completion_date DESC LIMIT 1`). -/
def latestCompletionDate (l : List Completion) (rid : Nat) : Option Int :=
  (l.filter (fun c => c.routine_id == rid)).foldr
    (fun c acc =>
      match acc with
      | none => some c.completion_date
      | some m => some (max m c.completion_date))
    none

/-- Trigger `reset_routine_streak` (AFTER DELETE ON
routine_completions): if no completion remains the streak resets to 0
and the last-completed date is cleared, otherwise the streak is
recomputed by `calculate_streak` from the most recent remaining date.
`longest_streak` is not touched. -/
def reset_routine_streak (remaining : List Completion) (rid : Nat) (r : Routine) :
    Routine :=
  if r.id == rid then
    match latestCompletionDate remaining rid with
    | none => { r with current_streak := 0, last_completed_at := none }
    | some ld =>
        { r with
          current_streak := calculate_streak (routineLog remaining rid) ld,
          last_completed_at := some ld }
  else r

/-- Database effect of one successful insert into `routine_completions`:
the row is written, then the AFTER INSERT triggers fire in name order —
`trigger_update_profile_stats` before `trigger_update_routine_streak` —
so the profile rollups read the routine rows before the streak
update. -/
def insertCompletionRow (db : DB) (c : Completion) : DB :=
  let completions := c :: db.completions
  let profiles := db.profiles.map (update_profile_stats db.routines c)
  let routines := db.routines.map (update_routine_streak c)
  { routines := routines, completions := completions, profiles := profiles }

/-- Database effect of one delete from `routine_completions` (the row
keyed by routine and date, unique by constraint): the row is removed,
then the AFTER DELETE triggers fire in name order —
`trigger_decrement_profile_stats` before `trigger_reset_routine_streak`. -/
def deleteCompletionRow (db : DB) (rid : Nat) (uid : Nat) (d : Int) : DB :=
  let remaining :=
    db.completions.filter (fun c => !(c.routine_id == rid && c.completion_date == d))
  let profiles := db.profiles.map (decrement_profile_stats db.routines uid)
  let routines := db.routines.map (reset_routine_streak remaining rid)
  { routines := routines, completions := remaining, profiles := profiles }

/-- Lookup of a routine row by primary key. -/
def findRoutine (db : DB) (rid : Nat) : Option Routine :=
  db.routines.find? (fun r => r.id == rid)

/-- Lookup of a profile row by primary key. -/
def findProfile (db : DB) (uid : Nat) : Option Profile :=
  db.profiles.find? (fun p => p.id == uid)

/-! ## Completion edge functions

`handleRoutineComplete` (POST /routines/:id/complete) threads the
database state and returns the typed error taxonomy of the shared error
classes.  The insert payload it sends contains `routine_id`, `user_id`,
`completion_date` and `note` only — no `streak_at_completion` — while
the table declares `streak_at_completion INT NOT NULL CHECK (> 0)`. -/

inductive ApiError
  | notFound
  | authorization
  | validation
  | conflict
deriving DecidableEq

inductive DbError
  | notNullViolation
  | checkViolation
  | uniqueViolation
deriving DecidableEq

structure CompletionInsertPayload where
  routine_id : Nat
  user_id : Nat
  completion_date : Int
  streak_at_completion : Option Nat

/-- Outcome of the raw SQL `INSERT INTO routine_completions`: Postgres
rejects a `NULL` in `streak_at_completion` (`23502`), a non-positive
value (`23514`), and a duplicate `(routine_id, completion_date)` key
(`23505`); on success the AFTER INSERT triggers fire. -/
def dbInsertCompletion (db : DB) (p : CompletionInsertPayload) :
    Except DbError DB :=
  match p.streak_at_completion with
  | none => Except.error DbError.notNullViolation
  | some s =>
    if s = 0 then Except.error DbError.checkViolation
    else if db.completions.any
        (fun c => c.routine_id == p.routine_id && c.completion_date == p.completion_date) then
      Except.error DbError.uniqueViolation
    else
      Except.ok (insertCompletionRow db
        { routine_id := p.routine_id, user_id := p.user_id,
          completion_date := p.completion_date, streak_at_completion := s })

/-- Edge function `handleRoutineComplete`: authorization and status
guards, explicit duplicate check (Conflict), then the insert; a
`23505` insert failure is also reported as Conflict and every other
insert failure as a validation error.  The returned `DB` is the state
after the call. -/
def handleRoutineComplete (db : DB) (uid : Nat) (rid : Nat) (d : Int) :
    DB × Except ApiError Unit :=
  match db.routines.find? (fun r => r.id == rid) with
  | none => (db, Except.error ApiError.notFound)
  | some r =>
    if r.user_id != uid then (db, Except.error ApiError.authorization)
    else if r.status != "active" then (db, Except.error ApiError.validation)
    else if db.completions.any
        (fun c => c.routine_id == rid && c.completion_date == d) then
      (db, Except.error ApiError.conflict)
    else
      match dbInsertCompletion db
        { routine_id := rid, user_id := uid, completion_date := d,
          streak_at_completion := none } with
      | Except.error DbError.uniqueViolation => (db, Except.error ApiError.conflict)
      | Except.error _ => (db, Except.error ApiError.validation)
      | Except.ok db2 => (db2, Except.ok ())

/-! ## Concrete states for the insert/delete claims -/

def c1db : DB :=
  { routines := [{ id := 1, user_id := 7, status := "active",
                   current_streak := 0, longest_streak := 0,
                   last_completed_at := none }],
    completions := [],
    profiles := [{ id := 7, total_completions := 0,
                   current_streak := 0, longest_streak := 0 }] }

def c1row : Completion :=
  { routine_id := 1, user_id := 7, completion_date := 0,
    streak_at_completion := 5 }

/-- C1 fails on the code: (i) the edge function's insert never succeeds
at all — its payload has no `streak_at_completion`, so the NOT NULL
constraint rejects it and the handler reports a validation error while
the state is unchanged; (ii) when a completion row is inserted with a
caller-supplied `streak_at_completion` (here 5, on an empty log), the
AFTER INSERT trigger copies that caller-supplied value into
`current_streak` even though `calculate_streak` on the resulting log
returns 1 — the streak is not recomputed from the log on insert. -/
theorem C1_counterexample_eval :
    handleRoutineComplete c1db 7 1 0 = (c1db, Except.error ApiError.validation) ∧
    (findRoutine (insertCompletionRow c1db c1row) 1).map
      (fun r => r.current_streak) = some 5 ∧
    calculate_streak (routineLog (insertCompletionRow c1db c1row).completions 1) 0 = 1 ∧
    (5 : Nat) ≠ 1 := by
  refine ⟨rfl, rfl, ?_, by omega⟩
  rfl

def c2completions : List Completion :=
  [{ routine_id := 1, user_id := 7, completion_date := 1, streak_at_completion := 1 },
   { routine_id := 1, user_id := 7, completion_date := 2, streak_at_completion := 2 },
   { routine_id := 1, user_id := 7, completion_date := 3, streak_at_completion := 3 },
   { routine_id := 1, user_id := 7, completion_date := 4, streak_at_completion := 4 },
   { routine_id := 1, user_id := 7, completion_date := 5, streak_at_completion := 5 }]

def c2db : DB :=
  { routines := [{ id := 1, user_id := 7, status := "active",
                   current_streak := 5, longest_streak := 5,
                   last_completed_at := some 5 }],
    completions := c2completions,
    profiles := [{ id := 7, total_completions := 5,
                   current_streak := 5, longest_streak := 5 }] }

/-- Behaviour of the delete path at the claim's own example (completions
on days 1..5, delete day 3): the routine's `current_streak` is
recomputed from the log to 2 (not 4), the last-completed date stays day
5, `longest_streak` keeps its high-water mark 5, and the profile's
`total_completions` drops from 5 to 4.  The claimed decrement of a
routine-level `total_completions` has no counterpart: the `routines`
table has no such column (the embedded `Routine` record carries every
streak field the table declares). -/
theorem C2_counterexample_eval :
    (findRoutine (deleteCompletionRow c2db 1 7 3) 1).map
      (fun r => (r.current_streak, r.longest_streak, r.last_completed_at)) =
        some (2, 5, some 5) ∧
    (findProfile (deleteCompletionRow c2db 1 7 3) 7).map
      (fun p => p.total_completions) = some 4 ∧
    (2 : Nat) ≠ 4 := by
  refine ⟨?_, rfl, by omega⟩
  rfl

/-! ## Sequences of completion inserts and deletes (for monotonicity) -/

inductive RoutineOp
  | insertOp (c : Completion)
  | deleteOp (rid : Nat) (uid : Nat) (d : Int)

def applyOp (db : DB) : RoutineOp → DB
  | RoutineOp.insertOp c => insertCompletionRow db c
  | RoutineOp.deleteOp rid uid d => deleteCompletionRow db rid uid d

def applyOps (db : DB) (ops : List RoutineOp) : DB :=
  ops.foldl applyOp db

theorem update_routine_streak_longest_le (c : Completion) (r : Routine) :
    r.longest_streak ≤ (update_routine_streak c r).longest_streak := by
  unfold update_routine_streak
  split
  · exact le_max_left _ _
  · exact le_refl _

theorem reset_routine_streak_longest_le (remaining : List Completion) (rid : Nat)
    (r : Routine) :
    r.longest_streak ≤ (reset_routine_streak remaining rid r).longest_streak := by
  unfold reset_routine_streak
  split
  · cases latestCompletionDate remaining rid <;> exact le_refl _
  · exact le_refl _

theorem forall2_longest_map (f : Routine → Routine)
    (h : ∀ r, r.longest_streak ≤ (f r).longest_streak) :
    ∀ l : List Routine,
      List.Forall₂ (fun a b => a.longest_streak ≤ b.longest_streak) l (l.map f) := by
  intro l
  induction l with
  | nil => exact List.Forall₂.nil
  | cons x xs ih => exact List.Forall₂.cons (h x) ih

theorem forall2_longest_refl (l : List Routine) :
    List.Forall₂ (fun a b => a.longest_streak ≤ b.longest_streak) l l := by
  induction l with
  | nil => exact List.Forall₂.nil
  | cons x xs ih => exact List.Forall₂.cons (le_refl _) ih

theorem forall2_longest_trans {l1 l2 l3 : List Routine}
    (h1 : List.Forall₂ (fun a b => a.longest_streak ≤ b.longest_streak) l1 l2)
    (h2 : List.Forall₂ (fun a b => a.longest_streak ≤ b.longest_streak) l2 l3) :
    List.Forall₂ (fun a b => a.longest_streak ≤ b.longest_streak) l1 l3 := by
  induction h1 generalizing l3 with
  | nil =>
    cases h2
    exact List.Forall₂.nil
  | cons ha htail ih =>
    cases h2 with
    | cons hb htb => exact List.Forall₂.cons (le_trans ha hb) (ih htb)

theorem applyOp_longest (db : DB) (op : RoutineOp) :
    List.Forall₂ (fun a b => a.longest_streak ≤ b.longest_streak)
      db.routines (applyOp db op).routines := by
  cases op with
  | insertOp c =>
    simp only [applyOp, insertCompletionRow]
    exact forall2_longest_map _ (fun r => update_routine_streak_longest_le c r)
      db.routines
  | deleteOp rid uid d =>
    simp only [applyOp, deleteCompletionRow]
    exact forall2_longest_map _ (fun r => reset_routine_streak_longest_le _ rid r)
      db.routines

/-- C8: across any sequence of completion inserts and deletes,
`longest_streak` never decreases on any routine row — inserts take
`GREATEST(longest_streak, NEW.streak_at_completion)` and no delete path
writes `longest_streak` at all. -/
theorem C8_longest_streak_monotone (ops : List RoutineOp) (db : DB) :
    List.Forall₂ (fun r0 r1 => r0.longest_streak ≤ r1.longest_streak)
      db.routines (applyOps db ops).routines := by
  induction ops generalizing db with
  | nil => exact forall2_longest_refl db.routines
  | cons op rest ih =>
    have h1 := applyOp_longest db op
    have h2 := ih (applyOp db op)
    exact forall2_longest_trans h1 h2

/-- C9: when the routine exists, is owned by the caller and active, and
a completion already exists for the requested date, the complete
endpoint fails with Conflict and returns the database unchanged — every
aggregate (routine streaks and totals, profile rollups) is exactly as
before the attempt. -/
theorem C9_duplicate_conflict (db : DB) (uid : Nat) (rid : Nat) (d : Int)
    (r : Routine)
    (hfind : db.routines.find? (fun x => x.id == rid) = some r)
    (howner : r.user_id = uid)
    (hactive : r.status = "active")
    (hdup : db.completions.any
      (fun c => c.routine_id == rid && c.completion_date == d) = true) :
    handleRoutineComplete db uid rid d = (db, Except.error ApiError.conflict) := by
  unfold handleRoutineComplete
  rw [hfind]
  simp [howner, hactive, hdup]

/-- Witness for C9: deleting nothing — the state `c2db` already holds a
completion for routine 1 on day 3, so completing day 3 again raises
Conflict and leaves the state untouched. -/
theorem C9_witness :
    handleRoutineComplete c2db 7 1 3 = (c2db, Except.error ApiError.conflict) :=
  C9_duplicate_conflict c2db 7 1 3
    { id := 1, user_id := 7, status := "active", current_streak := 5,
      longest_streak := 5, last_completed_at := some 5 }
    rfl rfl rfl rfl

/-! ## Membership / participation counters (C5)

`update_group_member_count` and `update_challenge_participant_count`
recompute the parent counter as `SELECT COUNT(*)` over the child table
on both insert and delete; `update_conversation_message_count` instead
executes `message_count = message_count + 1` and is installed for
AFTER INSERT only. -/

structure GroupRow where
  id : Nat
  member_count : Nat
deriving DecidableEq

structure GroupMember where
  group_id : Nat
  user_id : Nat
deriving DecidableEq

structure GroupState where
  groups : List GroupRow
  members : List GroupMember
deriving DecidableEq

def countGroupMembers (members : List GroupMember) (gid : Nat) : Nat :=
  (members.filter (fun m => m.group_id == gid)).length

/-- Trigger `update_group_member_count`: recount of `group_members` for
the touched group. -/
def update_group_member_count (groups : List GroupRow) (members : List GroupMember)
    (gid : Nat) : List GroupRow :=
  groups.map (fun g =>
    if g.id == gid then { g with member_count := countGroupMembers members gid }
    else g)

def groupMemberInsert (st : GroupState) (m : GroupMember) : GroupState :=
  let members := m :: st.members
  { groups := update_group_member_count st.groups members m.group_id,
    members := members }

def groupMemberDelete (st : GroupState) (gid : Nat) (uid : Nat) : GroupState :=
  let members := st.members.filter (fun m => !(m.group_id == gid && m.user_id == uid))
  { groups := update_group_member_count st.groups members gid,
    members := members }

structure Challenge where
  id : Nat
  participant_count : Nat
deriving DecidableEq

structure ChallengeParticipant where
  challenge_id : Nat
  user_id : Nat
deriving DecidableEq

structure ChallengeState where
  challenges : List Challenge
  participants : List ChallengeParticipant
deriving DecidableEq

def countParticipants (participants : List ChallengeParticipant) (cid : Nat) : Nat :=
  (participants.filter (fun p => p.challenge_id == cid)).length

/-- Trigger `update_challenge_participant_count`: recount of
`challenge_participants` for the touched challenge. -/
def update_challenge_participant_count (challenges : List Challenge)
    (participants : List ChallengeParticipant) (cid : Nat) : List Challenge :=
  challenges.map (fun ch =>
    if ch.id == cid then { ch with participant_count := countParticipants participants cid }
    else ch)

def challengeParticipantInsert (st : ChallengeState) (p : ChallengeParticipant) :
    ChallengeState :=
  let participants := p :: st.participants
  { challenges := update_challenge_participant_count st.challenges participants p.challenge_id,
    participants := participants }

def challengeParticipantDelete (st : ChallengeState) (cid : Nat) (uid : Nat) :
    ChallengeState :=
  let participants :=
    st.participants.filter (fun p => !(p.challenge_id == cid && p.user_id == uid))
  { challenges := update_challenge_participant_count st.challenges participants cid,
    participants := participants }

structure Conversation where
  id : Nat
  message_count : Nat
deriving DecidableEq

structure Message where
  conversation_id : Nat
deriving DecidableEq

structure ConversationState where
  conversations : List Conversation
  messages : List Message
deriving DecidableEq

def countMessages (messages : List Message) (cid : Nat) : Nat :=
  (messages.filter (fun m => m.conversation_id == cid)).length

/-- Trigger `update_conversation_message_count`: a blind
`message_count = message_count + 1`, not a recount. -/
def update_conversation_message_count (conversations : List Conversation)
    (cid : Nat) : List Conversation :=
  conversations.map (fun cv =>
    if cv.id == cid then { cv with message_count := cv.message_count + 1 }
    else cv)

def messageInsert (st : ConversationState) (msg : Message) : ConversationState :=
  { conversations := update_conversation_message_count st.conversations msg.conversation_id,
    messages := msg :: st.messages }

theorem group_count_correct (groups : List GroupRow) (members : List GroupMember)
    (gid : Nat) (g : GroupRow)
    (hmem : g ∈ update_group_member_count groups members gid) (hid : g.id = gid) :
    g.member_count = countGroupMembers members g.id := by
  unfold update_group_member_count at hmem
  rcases List.mem_map.mp hmem with ⟨g0, hg0, hfg⟩
  by_cases hcase : g0.id == gid
  · rw [if_pos hcase] at hfg
    subst hfg
    have hg0id : g0.id = gid := by simpa using hcase
    show countGroupMembers members gid = countGroupMembers members g0.id
    rw [hg0id]
  · rw [if_neg hcase] at hfg
    subst hfg
    exact absurd hid (by simpa using hcase)

theorem challenge_count_correct (challenges : List Challenge)
    (participants : List ChallengeParticipant) (cid : Nat) (ch : Challenge)
    (hmem : ch ∈ update_challenge_participant_count challenges participants cid)
    (hid : ch.id = cid) :
    ch.participant_count = countParticipants participants ch.id := by
  unfold update_challenge_participant_count at hmem
  rcases List.mem_map.mp hmem with ⟨c0, hc0, hfc⟩
  by_cases hcase : c0.id == cid
  · rw [if_pos hcase] at hfc
    subst hfc
    have hc0id : c0.id = cid := by simpa using hcase
    show countParticipants participants cid = countParticipants participants c0.id
    rw [hc0id]
  · rw [if_neg hcase] at hfc
    subst hfc
    exact absurd hid (by simpa using hcase)

def c5state : ConversationState :=
  { conversations := [{ id := 1, message_count := 5 }], messages := [] }

/-- Counterexample for C5 as stated: the conversation `message_count`
trigger increments instead of recounting, so on a parent whose counter
is out of sync (here 5, with no child messages) an insert yields 6
while the count of child rows is 1 — the counter is not obtained by
recomputing COUNT and does not equal the count of child rows. -/
theorem C5_counterexample :
    ((messageInsert c5state { conversation_id := 1 }).conversations.find?
        (fun cv => cv.id == 1)).map (fun cv => cv.message_count) = some 6 ∧
    countMessages (messageInsert c5state { conversation_id := 1 }).messages 1 = 1 ∧
    (6 : Nat) ≠ 1 :=
  ⟨rfl, rfl, by omega⟩

/-- C5 (amended): on insert or delete of a group member or challenge
participant, the touched parent's counter is recomputed as COUNT of the
child rows and therefore equals that count afterwards; the conversation
`message_count`, by contrast, is only incremented by exactly 1 on
message insert (there is no recount and no delete trigger). -/
theorem C5_counters_amended :
    (∀ (st : GroupState) (m : GroupMember) (g : GroupRow),
        g ∈ (groupMemberInsert st m).groups → g.id = m.group_id →
          g.member_count = countGroupMembers (groupMemberInsert st m).members g.id) ∧
    (∀ (st : GroupState) (gid uid : Nat) (g : GroupRow),
        g ∈ (groupMemberDelete st gid uid).groups → g.id = gid →
          g.member_count = countGroupMembers (groupMemberDelete st gid uid).members g.id) ∧
    (∀ (st : ChallengeState) (p : ChallengeParticipant) (ch : Challenge),
        ch ∈ (challengeParticipantInsert st p).challenges → ch.id = p.challenge_id →
          ch.participant_count =
            countParticipants (challengeParticipantInsert st p).participants ch.id) ∧
    (∀ (st : ChallengeState) (cid uid : Nat) (ch : Challenge),
        ch ∈ (challengeParticipantDelete st cid uid).challenges → ch.id = cid →
          ch.participant_count =
            countParticipants (challengeParticipantDelete st cid uid).participants ch.id) ∧
    (∀ (st : ConversationState) (msg : Message) (cv : Conversation),
        cv ∈ st.conversations → cv.id = msg.conversation_id →
          ∃ cv2, cv2 ∈ (messageInsert st msg).conversations ∧ cv2.id = cv.id ∧
            cv2.message_count = cv.message_count + 1) := by
  refine ⟨?_, ?_, ?_, ?_, ?_⟩
  · intro st m g hmem hid
    exact group_count_correct st.groups (m :: st.members) m.group_id g hmem hid
  · intro st gid uid g hmem hid
    exact group_count_correct st.groups
      (st.members.filter (fun x => !(x.group_id == gid && x.user_id == uid))) gid g hmem hid
  · intro st p ch hmem hid
    exact challenge_count_correct st.challenges (p :: st.participants) p.challenge_id ch
      hmem hid
  · intro st cid uid ch hmem hid
    exact challenge_count_correct st.challenges
      (st.participants.filter (fun x => !(x.challenge_id == cid && x.user_id == uid)))
      cid ch hmem hid
  · intro st msg cv hcv hid
    refine ⟨{ cv with message_count := cv.message_count + 1 }, ?_, rfl, rfl⟩
    have hmapped := List.mem_map_of_mem
      (f := fun c : Conversation =>
        if c.id == msg.conversation_id then { c with message_count := c.message_count + 1 }
        else c) hcv
    simp only [messageInsert, update_conversation_message_count]
    simpa [hid] using hmapped

def c5gstate : GroupState :=
  { groups := [{ id := 1, member_count := 0 }], members := [] }

/-- Witness for the amended C5: inserting a member into a group with an
empty member list leaves the recomputed counter equal to the child
count, namely 1. -/
theorem C5_witness :
    ({ id := 1, member_count := 1 } : GroupRow) ∈
      (groupMemberInsert c5gstate { group_id := 1, user_id := 42 }).groups ∧
    ({ id := 1, member_count := 1 } : GroupRow).member_count =
      countGroupMembers (groupMemberInsert c5gstate { group_id := 1, user_id := 42 }).members
        ({ id := 1, member_count := 1 } : GroupRow).id := by
  constructor
  · decide
  · exact C5_counters_amended.1 c5gstate { group_id := 1, user_id := 42 }
      { id := 1, member_count := 1 } (by decide) rfl

/-! ## Quota ledger (AI rate limiting)

Calendar dates are year/month/day triples ordered lexicographically
(string comparison of ISO dates and SQL `DATE` comparison agree with
this).  Timestamps (`NOW()`, `subscription_expires_at`) are abstract
instants modelled as `Int`. -/

structure CalDate where
  year : Nat
  month : Nat
  day : Nat
deriving DecidableEq

def CalDate.ble (a b : CalDate) : Bool :=
  decide (a.year < b.year ∨ (a.year = b.year ∧
    (a.month < b.month ∨ (a.month = b.month ∧ a.day ≤ b.day))))

/-- SQL `DATE_TRUNC('month', d)` / the TS `YYYY-MM-01` string. -/
def monthStart (d : CalDate) : CalDate :=
  { year := d.year, month := d.month, day := 1 }

/-- TS `new Date(year, month + 1, 1)`: the first day of the next
calendar month (JS rolls month 12 over to January). -/
def firstOfNextMonth (d : CalDate) : CalDate :=
  if d.month == 12 then { year := d.year + 1, month := 1, day := 1 }
  else { year := d.year, month := d.month + 1, day := 1 }

def isLeapYear (y : Nat) : Bool :=
  (y % 4 == 0 && y % 100 != 0) || y % 400 == 0

def daysInMonth (y : Nat) (m : Nat) : Nat :=
  if m == 2 then (if isLeapYear y then 29 else 28)
  else if m == 4 || m == 6 || m == 9 || m == 11 then 30
  else 31

/-- TS `resetAt.setDate(resetAt.getDate() + 1)` on a midnight date: the
next calendar day, rolling over month and year ends. -/
def nextDay (d : CalDate) : CalDate :=
  if d.day < daysInMonth d.year d.month then
    { year := d.year, month := d.month, day := d.day + 1 }
  else if d.month < 12 then { year := d.year, month := d.month + 1, day := 1 }
  else { year := d.year + 1, month := 1, day := 1 }

/-- Columns of `profiles` the quota functions SELECT. -/
structure SubscriptionProfile where
  subscription_plan : String
  subscription_expires_at : Option Int
deriving DecidableEq

/-- Shared pro-tier test: plan is `pro` and the expiry timestamp (when
present) lies strictly after `now`; a missing expiry means not pro
(SQL: `NULL > NOW()` is `NULL`, hence the ELSE branch; TS: the `&&`
chain short-circuits on a falsy `subscription_expires_at`). -/
def isProActive (p : SubscriptionProfile) (now : Int) : Bool :=
  p.subscription_plan == "pro" &&
    (match p.subscription_expires_at with
     | some e => decide (now < e)
     | none => false)

/-- Rows of `ai_usage_tracking`. -/
structure UsageRecord where
  user_id : Nat
  usage_date : CalDate
  conversation_count : Nat
  message_count : Nat
  tokens_used : Nat
deriving DecidableEq

/-- The `(user_id, usage_date)` key test used by every quota query
(`WHERE user_id = .. AND usage_date = ..` / the PostgREST `.eq` pair). -/
def quotaKey (uid : Nat) (d : CalDate) (r : UsageRecord) : Bool :=
  r.user_id == uid && r.usage_date == d

/-- The `DO UPDATE SET` arm of `increment_ai_usage`. -/
def quotaBump (tokens : Nat) (r : UsageRecord) : UsageRecord :=
  { r with conversation_count := r.conversation_count + 1,
           message_count := r.message_count + 1,
           tokens_used := r.tokens_used + tokens }

structure RateLimitResult where
  allowed : Bool
  remaining : Nat
  resetAt : CalDate
  limit : Nat
deriving DecidableEq

/-- TS `checkAIRateLimit` (rate-limit.ts): pro branch sums
`conversation_count` over the user's records dated on or after the
first of the current month against a 500 ceiling with `resetAt` the
first of next month; free branch reads the single record for today
against a 3 ceiling with `resetAt` midnight tomorrow.  `Math.max(0, _)`
is `Nat` truncated subtraction. -/
def checkAIRateLimit (p : SubscriptionProfile) (ledger : List UsageRecord)
    (uid : Nat) (now : Int) (today : CalDate) : RateLimitResult :=
  if isProActive p now then
    let usageDate := monthStart today
    let rows := ledger.filter
      (fun r => r.user_id == uid && CalDate.ble usageDate r.usage_date)
    let totalUsage := rows.foldl (fun sum r => sum + r.conversation_count) 0
    { allowed := decide (totalUsage < 500), remaining := 500 - totalUsage,
      resetAt := firstOfNextMonth today, limit := 500 }
  else
    let usage := ledger.find? (quotaKey uid today)
    let used := match usage with
      | some r => r.conversation_count
      | none => 0
    { allowed := decide (used < 3), remaining := 3 - used,
      resetAt := nextDay today, limit := 3 }

/-- SQL `check_ai_limit`: same tier test and windows, but PL/pgSQL
semantics — in the free branch `SELECT ... INTO v_count` over zero rows
leaves `v_count` NULL (the row-level `COALESCE` never runs), and
`RETURN v_count < v_limit` then returns NULL, modelled as `none`.  The
pro branch's aggregate `SELECT COALESCE(SUM(..), 0)` always yields a
number. -/
def check_ai_limit (p : SubscriptionProfile) (ledger : List UsageRecord)
    (uid : Nat) (now : Int) (checkDate : CalDate) : Option Bool :=
  if isProActive p now then
    let vCount := (ledger.filter
      (fun r => r.user_id == uid && CalDate.ble (monthStart checkDate) r.usage_date)).foldl
      (fun sum r => sum + r.conversation_count) 0
    some (decide (vCount < 500))
  else
    match ledger.find? (quotaKey uid checkDate) with
    | some r => some (decide (r.conversation_count < 3))
    | none => none

/-- SQL `increment_ai_usage`: `INSERT ... ON CONFLICT (user_id,
usage_date) DO UPDATE` — insert a fresh row with counts 1, or bump the
existing row's counters. -/
def increment_ai_usage (ledger : List UsageRecord) (uid : Nat) (d : CalDate)
    (tokens : Nat) : List UsageRecord :=
  if ledger.any (quotaKey uid d) then
    ledger.map (fun r => if quotaKey uid d r then quotaBump tokens r else r)
  else
    { user_id := uid, usage_date := d, conversation_count := 1, message_count := 1,
      tokens_used := tokens } :: ledger

/-- Lookup of the usage record for a (subject, day) key. -/
def usageFor (ledger : List UsageRecord) (uid : Nat) (d : CalDate) :
    Option UsageRecord :=
  ledger.find? (quotaKey uid d)

/-- Conversation count stored for a (subject, day) key, 0 when the
record is absent. -/
def convCount (ledger : List UsageRecord) (uid : Nat) (d : CalDate) : Nat :=
  match usageFor ledger uid d with
  | some r => r.conversation_count
  | none => 0

/-- Uniqueness invariant of `ai_usage_tracking`:
`UNIQUE(user_id, usage_date)`. -/
def UniqueKeys (ledger : List UsageRecord) : Prop :=
  List.Pairwise
    (fun a b => ¬(a.user_id = b.user_id ∧ a.usage_date = b.usage_date)) ledger

def incrementIterate (ledger : List UsageRecord) (uid : Nat) (d : CalDate)
    (tokens : Nat) : Nat → List UsageRecord
  | 0 => ledger
  | n + 1 => increment_ai_usage (incrementIterate ledger uid d tokens n) uid d tokens

theorem quotaKey_bump (uid : Nat) (d : CalDate) (t : Nat) (r : UsageRecord) :
    quotaKey uid d (quotaBump t r) = quotaKey uid d r := rfl

theorem find?_map_bumpIf (uid : Nat) (d : CalDate) (t : Nat) :
    ∀ l : List UsageRecord,
      (l.map (fun r => if quotaKey uid d r then quotaBump t r else r)).find?
          (quotaKey uid d) =
        (l.find? (quotaKey uid d)).map
          (fun r => if quotaKey uid d r then quotaBump t r else r) := by
  intro l
  induction l with
  | nil => rfl
  | cons r rest ih =>
    by_cases h : quotaKey uid d r = true
    · have h2 : quotaKey uid d
          ((fun x => if quotaKey uid d x then quotaBump t x else x) r) = true := by
        simp only [h, if_true, quotaKey_bump]
      rw [List.map_cons, List.find?_cons_of_pos _ h2, List.find?_cons_of_pos _ h]
      rfl
    · have hf : (fun x => if quotaKey uid d x then quotaBump t x else x) r = r := by
        simp [h]
      have h2 : quotaKey uid d
          ((fun x => if quotaKey uid d x then quotaBump t x else x) r) = false := by
        rw [hf]
        simpa using h
      rw [List.map_cons, List.find?_cons_of_neg _ (by simp [h2]),
        List.find?_cons_of_neg _ (by simpa using h)]
      exact ih

theorem usageFor_increment_key (ledger : List UsageRecord) (uid : Nat)
    (d : CalDate) (t : Nat) :
    usageFor (increment_ai_usage ledger uid d t) uid d =
      match usageFor ledger uid d with
      | some r => some (quotaBump t r)
      | none =>
          some { user_id := uid, usage_date := d, conversation_count := 1,
                 message_count := 1, tokens_used := t } := by
  unfold increment_ai_usage usageFor
  by_cases hany : ledger.any (quotaKey uid d) = true
  · rw [if_pos hany, find?_map_bumpIf]
    cases hfind : ledger.find? (quotaKey uid d) with
    | none =>
      exfalso
      have h1 := List.find?_eq_none.mp hfind
      rcases List.any_eq_true.mp hany with ⟨x, hx, hpx⟩
      exact h1 x hx hpx
    | some r =>
      have hkey : quotaKey uid d r = true := List.find?_some hfind
      simp [hkey]
  · rw [if_neg hany]
    have hk : quotaKey uid d
        { user_id := uid, usage_date := d, conversation_count := 1,
          message_count := 1, tokens_used := t } = true := by
      simp [quotaKey]
    rw [List.find?_cons_of_pos _ hk]
    have hnone : ledger.find? (quotaKey uid d) = none := by
      rw [List.find?_eq_none]
      intro x hx hpx
      exact hany (List.any_eq_true.mpr ⟨x, hx, hpx⟩)
    rw [hnone]

theorem find?_map_bumpIf_other (uid : Nat) (d : CalDate) (t : Nat)
    (uid2 : Nat) (d2 : CalDate) (hne : ¬(uid2 = uid ∧ d2 = d)) :
    ∀ l : List UsageRecord,
      (l.map (fun r => if quotaKey uid d r then quotaBump t r else r)).find?
          (quotaKey uid2 d2) =
        l.find? (quotaKey uid2 d2) := by
  intro l
  induction l with
  | nil => rfl
  | cons r rest ih =>
    by_cases h : quotaKey uid2 d2 r = true
    · have hkeys : r.user_id = uid2 ∧ r.usage_date = d2 := by
        unfold quotaKey at h
        simpa using h
      have hnot : quotaKey uid d r = false := by
        unfold quotaKey
        rw [hkeys.1, hkeys.2]
        simp only [Bool.and_eq_false_iff, beq_eq_false_iff_ne, ne_eq]
        by_cases hu : uid2 = uid
        · right
          intro hd
          exact hne ⟨hu, hd⟩
        · left
          exact hu
      have hf : (if quotaKey uid d r = true then quotaBump t r else r) = r := by
        rw [hnot]
        simp
      rw [List.map_cons, List.find?_cons_of_pos _ (by rw [hf]; exact h),
        List.find?_cons_of_pos _ h, hf]
    · have hf : quotaKey uid2 d2
          (if quotaKey uid d r = true then quotaBump t r else r) = false := by
        by_cases hx : quotaKey uid d r = true
        · simp only [hx, if_true, quotaKey_bump]
          simpa using h
        · simp only [Bool.not_eq_true] at hx
          simp only [hx, Bool.false_eq_true, if_false]
          simpa using h
      rw [List.map_cons, List.find?_cons_of_neg _ (by simp [hf]),
        List.find?_cons_of_neg _ (by simpa using h)]
      exact ih

theorem convCount_increment (ledger : List UsageRecord) (uid : Nat) (d : CalDate)
    (t : Nat) :
    convCount (increment_ai_usage ledger uid d t) uid d =
      convCount ledger uid d + 1 := by
  unfold convCount
  rw [usageFor_increment_key]
  cases usageFor ledger uid d with
  | none => rfl
  | some r => rfl

/-- C7: one `increment_ai_usage` call for (subject, today) is a single
upsert — absent key: a fresh record with count 1 is created; present
key: its count is bumped by exactly 1; every other (subject, day) key
is left untouched; and N successive increments starting from a day with
no usage yield a count of exactly N. -/
theorem C7_increment_upsert (ledger : List UsageRecord) (uid : Nat) (d : CalDate)
    (t : Nat) :
    (usageFor ledger uid d = none →
        usageFor (increment_ai_usage ledger uid d t) uid d =
          some { user_id := uid, usage_date := d, conversation_count := 1,
                 message_count := 1, tokens_used := t }) ∧
    (∀ r, usageFor ledger uid d = some r →
        usageFor (increment_ai_usage ledger uid d t) uid d = some (quotaBump t r)) ∧
    (∀ (uid2 : Nat) (d2 : CalDate), ¬(uid2 = uid ∧ d2 = d) →
        usageFor (increment_ai_usage ledger uid d t) uid2 d2 =
          usageFor ledger uid2 d2) ∧
    (∀ n : Nat, convCount ledger uid d = 0 →
        convCount (incrementIterate ledger uid d t n) uid d = n) := by
  refine ⟨?_, ?_, ?_, ?_⟩
  · intro h
    rw [usageFor_increment_key, h]
  · intro r h
    rw [usageFor_increment_key, h]
  · intro uid2 d2 hne
    unfold increment_ai_usage usageFor
    by_cases hany : ledger.any (quotaKey uid d) = true
    · rw [if_pos hany]
      exact find?_map_bumpIf_other uid d t uid2 d2 hne ledger
    · rw [if_neg hany]
      have hk : quotaKey uid2 d2
          { user_id := uid, usage_date := d, conversation_count := 1,
            message_count := 1, tokens_used := t } = false := by
        unfold quotaKey
        simp only [Bool.and_eq_false_iff, beq_eq_false_iff_ne, ne_eq]
        by_cases hu : uid = uid2
        · right
          intro hd
          exact hne ⟨hu.symm, hd.symm⟩
        · left
          exact hu
      rw [List.find?_cons_of_neg _ (by simp [hk])]
  · intro n h0
    induction n with
    | zero => exact h0
    | succ m ih =>
      show convCount
        (increment_ai_usage (incrementIterate ledger uid d t m) uid d t) uid d = m + 1
      rw [convCount_increment, ih]

/-- Witness for C7: three increments against an empty ledger create the
(7, 2026-10-11) record and leave its count at exactly 3. -/
theorem C7_witness :
    usageFor ([] : List UsageRecord) 7 ⟨2026, 10, 11⟩ = none ∧
    usageFor (increment_ai_usage [] 7 ⟨2026, 10, 11⟩ 0) 7 ⟨2026, 10, 11⟩ =
      some { user_id := 7, usage_date := ⟨2026, 10, 11⟩, conversation_count := 1,
             message_count := 1, tokens_used := 0 } ∧
    convCount (incrementIterate [] 7 ⟨2026, 10, 11⟩ 0 3) 7 ⟨2026, 10, 11⟩ = 3 := by
  refine ⟨rfl, ?_, ?_⟩
  · exact (C7_increment_upsert [] 7 ⟨2026, 10, 11⟩ 0).1 rfl
  · exact (C7_increment_upsert [] 7 ⟨2026, 10, 11⟩ 0).2.2.2 3 rfl

/-- Usage summed over the daily window, as the spec words it: the total
of `conversation_count` over the subject's records dated today. -/
def dayWindowUsed (ledger : List UsageRecord) (uid : Nat) (today : CalDate) : Nat :=
  (ledger.filter (quotaKey uid today)).foldl (fun s r => s + r.conversation_count) 0

/-- Usage summed over the calendar-month window, as the spec words it:
the total of `conversation_count` over the subject's records whose date
falls in today's calendar month. -/
def monthWindowUsed (ledger : List UsageRecord) (uid : Nat) (today : CalDate) : Nat :=
  (ledger.filter (fun r => r.user_id == uid &&
      (r.usage_date.year == today.year && r.usage_date.month == today.month))).foldl
    (fun s r => s + r.conversation_count) 0

theorem dayWindowUsed_eq_convCount (ledger : List UsageRecord) (uid : Nat)
    (today : CalDate) (huniq : UniqueKeys ledger) :
    dayWindowUsed ledger uid today = convCount ledger uid today := by
  unfold dayWindowUsed convCount usageFor UniqueKeys at *
  induction ledger with
  | nil => rfl
  | cons r rest ih =>
    rcases List.pairwise_cons.mp huniq with ⟨hr, htail⟩
    by_cases h : quotaKey uid today r = true
    · have hrkeys : r.user_id = uid ∧ r.usage_date = today := by
        unfold quotaKey at h
        simpa using h
      have hfe : rest.filter (quotaKey uid today) = [] := by
        rw [List.filter_eq_nil_iff]
        intro b hb hpb
        have hbkeys : b.user_id = uid ∧ b.usage_date = today := by
          unfold quotaKey at hpb
          simpa using hpb
        exact hr b hb ⟨hrkeys.1.trans hbkeys.1.symm, hrkeys.2.trans hbkeys.2.symm⟩
      rw [List.filter_cons_of_pos h, hfe, List.find?_cons_of_pos _ h]
      simp
    · rw [List.filter_cons_of_neg (by simpa using h),
        List.find?_cons_of_neg _ (by simpa using h)]
      exact ih htail

theorem proFilter_eq_monthFilter (ledger : List UsageRecord) (uid : Nat)
    (today : CalDate)
    (hpast : ∀ r ∈ ledger, CalDate.ble r.usage_date today = true)
    (hday : ∀ r ∈ ledger, 1 ≤ r.usage_date.day) :
    ledger.filter
        (fun r => r.user_id == uid && CalDate.ble (monthStart today) r.usage_date) =
      ledger.filter (fun r => r.user_id == uid &&
        (r.usage_date.year == today.year && r.usage_date.month == today.month)) := by
  apply List.filter_congr
  intro r hr
  have h1 := hpast r hr
  have h2 := hday r hr
  rw [Bool.eq_iff_iff]
  unfold CalDate.ble monthStart at *
  simp only [decide_eq_true_eq, Bool.and_eq_true, beq_iff_eq] at *
  constructor
  · rintro ⟨hu, hlex⟩
    refine ⟨hu, ?_, ?_⟩ <;> omega
  · rintro ⟨hu, hy, hm⟩
    exact ⟨hu, by omega⟩

/-- C6: the quota check determines the tier from the subject's current
plan and expiry at call time; for an active pro it sums usage over the
calendar-month window against ceiling 500 with `resetAt` the first of
next month, otherwise over the daily window against ceiling 3 with
`resetAt` midnight of the next day; `allowed` is `used < ceiling` and
`remaining` is the truncated (max-0) difference.  Hypotheses: the
ledger honours the `(user_id, usage_date)` uniqueness constraint, and
holds no record dated after today (records are only ever created for
the current day) with calendar-valid day numbers. -/
theorem C6_quota_check (p : SubscriptionProfile) (ledger : List UsageRecord)
    (uid : Nat) (now : Int) (today : CalDate)
    (huniq : UniqueKeys ledger)
    (hpast : ∀ r ∈ ledger, CalDate.ble r.usage_date today = true)
    (hday : ∀ r ∈ ledger, 1 ≤ r.usage_date.day) :
    checkAIRateLimit p ledger uid now today =
      if isProActive p now then
        { allowed := decide (monthWindowUsed ledger uid today < 500),
          remaining := 500 - monthWindowUsed ledger uid today,
          resetAt := firstOfNextMonth today, limit := 500 }
      else
        { allowed := decide (dayWindowUsed ledger uid today < 3),
          remaining := 3 - dayWindowUsed ledger uid today,
          resetAt := nextDay today, limit := 3 } := by
  unfold checkAIRateLimit
  by_cases hpro : isProActive p now = true
  · rw [if_pos hpro, if_pos hpro]
    have hfe := proFilter_eq_monthFilter ledger uid today hpast hday
    unfold monthWindowUsed
    rw [← hfe]
  · rw [if_neg hpro, if_neg hpro]
    rw [dayWindowUsed_eq_convCount ledger uid today huniq]
    rfl

def c6profile : SubscriptionProfile :=
  { subscription_plan := "basic", subscription_expires_at := none }

def c6ledger : List UsageRecord :=
  [{ user_id := 7, usage_date := ⟨2026, 10, 11⟩, conversation_count := 2,
     message_count := 2, tokens_used := 0 }]

/-- Witness for C6: a free subject with 2 conversations used today is
allowed, with 1 remaining and reset at the next midnight. -/
theorem C6_witness :
    UniqueKeys c6ledger ∧
    checkAIRateLimit c6profile c6ledger 7 0 ⟨2026, 10, 11⟩ =
      { allowed := true, remaining := 1, resetAt := ⟨2026, 10, 12⟩, limit := 3 } := by
  have hu : UniqueKeys c6ledger := by
    unfold UniqueKeys c6ledger
    exact List.pairwise_singleton _ _
  refine ⟨hu, ?_⟩
  have h := C6_quota_check c6profile c6ledger 7 0 ⟨2026, 10, 11⟩ hu
    (by decide) (by decide)
  exact h.trans (by rfl)

/-- C10 fails on the code: for a free-tier subject with no usage record
on the check date, the SQL `check_ai_limit` returns SQL NULL (the
`SELECT ... INTO` finds no row, `v_count` stays NULL and `NULL < 3` is
NULL) — no boolean at all — while the TypeScript `checkAIRateLimit`
returns `allowed = true`.  The two implementations do not agree at this
input. -/
theorem C10_divergence_eval :
    check_ai_limit c6profile [] 7 0 ⟨2026, 10, 11⟩ = none ∧
    (checkAIRateLimit c6profile [] 7 0 ⟨2026, 10, 11⟩).allowed = true ∧
    check_ai_limit c6profile [] 7 0 ⟨2026, 10, 11⟩ ≠
      some ((checkAIRateLimit c6profile [] 7 0 ⟨2026, 10, 11⟩).allowed) := by
  refine ⟨rfl, rfl, ?_⟩
  intro h
  exact Option.noConfusion h
